import Mathlib

/-!
Verification development for the Foursquare Places MCP adapter
(`src/places.py`).

The Python module is embedded shallowly:

* JSON values (the payloads flowing through the adapter) are the
  inductive `JVal`; Python dictionaries become association lists.
* Python dictionary operations (`d.get`, `k in d`, iteration, `len`,
  slicing) are modelled as `Except PyErr` computations, because on a
  value of the wrong shape Python raises (`AttributeError`,
  `TypeError`); the exception is part of the observable behaviour.
* The network is an oracle input `HttpOutcome`: either a response with
  a status code and an already-decoded JSON body, or a transport
  exception carrying a message.  Each tool call consumes exactly one
  outcome, mirroring the single un-retried upstream request per call.
* Every tool returns a `ToolOutput`: the upstream HTTP request it
  actually issued (if any) together with either the result envelope or
  the Python exception that escaped to the caller.
-/

/-- JSON value, the shape of all payloads handled by `places.py`.
Numbers are modelled as rationals (JSON decimals). -/
inductive JVal where
  | null : JVal
  | bool (b : Bool) : JVal
  | num (q : ℚ) : JVal
  | str (s : String) : JVal
  | arr (elems : List JVal) : JVal
  | obj (fields : List (String × JVal)) : JVal

/-- Python exception kinds relevant to this module. -/
inductive PyErr where
  | attributeError : PyErr
  | typeError : PyErr
deriving DecidableEq

/-- Approximate text of a Python exception, as `str(e)` would render it. -/
def pyErrStr : PyErr → String
  | PyErr.attributeError => "AttributeError"
  | PyErr.typeError => "TypeError"

/-- Key lookup in an association list modelling a Python dict
(keys are unique in a real dict; the first binding wins here). -/
def lookupKey (fields : List (String × JVal)) (k : String) : Option JVal :=
  match fields.find? (fun kv => kv.1 = k) with
  | some kv => some kv.2
  | none => none

/-- `d.get(k, default)`: default on a missing key, `AttributeError`
when the receiver is not a dict. -/
def pyGetD (v : JVal) (k : String) (d : JVal) : Except PyErr JVal :=
  match v with
  | JVal.obj fields => Except.ok ((lookupKey fields k).getD d)
  | _ => Except.error PyErr.attributeError

/-- `d.get(k)`: `None` on a missing key. -/
def pyGet (v : JVal) (k : String) : Except PyErr JVal :=
  pyGetD v k JVal.null

/-- Substring test, modelling `needle in haystack` for strings. -/
def strContains (s pat : String) : Bool :=
  pat.isEmpty || (s.splitOn pat).length ≥ 2

/-- `k in v`: key membership for dicts, element membership for lists,
substring for strings, `TypeError` otherwise. -/
def pyIn (k : String) (v : JVal) : Except PyErr Bool :=
  match v with
  | JVal.obj fields => Except.ok (lookupKey fields k).isSome
  | JVal.arr elems =>
      Except.ok (elems.any (fun x => match x with
        | JVal.str s => s = k
        | _ => false))
  | JVal.str s => Except.ok (strContains s k)
  | _ => Except.error PyErr.typeError

/-- Iterating a Python value (also the values `len` accepts): lists
yield elements, strings yield one-character strings, dicts yield keys;
anything else raises `TypeError`. -/
def pyElems (v : JVal) : Except PyErr (List JVal) :=
  match v with
  | JVal.arr elems => Except.ok elems
  | JVal.str s => Except.ok (s.toList.map (fun c => JVal.str c.toString))
  | JVal.obj fields => Except.ok (fields.map (fun kv => JVal.str kv.1))
  | _ => Except.error PyErr.typeError

/-- `v[:5]`: slicing works on lists and strings, raises otherwise. -/
def pySlice5 (v : JVal) : Except PyErr (List JVal) :=
  match v with
  | JVal.arr elems => Except.ok (elems.take 5)
  | JVal.str s => Except.ok ((s.toList.take 5).map (fun c => JVal.str c.toString))
  | _ => Except.error PyErr.typeError

/-- A Python list comprehension `[f(x) for x in xs]`: left to right,
stopping at the first exception. -/
def mapPy (f : JVal → Except PyErr JVal) : List JVal → Except PyErr (List JVal)
  | [] => Except.ok []
  | x :: xs => do
      let y ← f x
      let ys ← mapPy f xs
      pure (y :: ys)

/-- Python truthiness of a JSON value: `None`, `False`, `0`, `""` and
empty containers are falsy. -/
def truthy : JVal → Bool
  | JVal.null => false
  | JVal.bool b => b
  | JVal.num q => if q = 0 then false else true
  | JVal.str s => !s.isEmpty
  | JVal.arr elems => !elems.isEmpty
  | JVal.obj fields => !fields.isEmpty

/-- Rendering a JSON number the way Python `str` does for the common
cases (integers print without a denominator).  Container rendering is
abbreviated; nothing in this development renders a container. -/
def pyNumStr (q : ℚ) : String :=
  if q.den = 1 then toString q.num else toString q

/-- `str(v)` / f-string interpolation of a decoded JSON value. -/
def pyStr : JVal → String
  | JVal.null => "None"
  | JVal.bool b => if b then "True" else "False"
  | JVal.num q => pyNumStr q
  | JVal.str s => s
  | JVal.arr _ => "[...]"
  | JVal.obj _ => "\x7b...\x7d"

/-- Total field projection used only in theorem statements: the value
under key `k` when `v` is an object that has it, `null` otherwise. -/
def getField (v : JVal) (k : String) : JVal :=
  match v with
  | JVal.obj fields => (lookupKey fields k).getD JVal.null
  | _ => JVal.null

/-- The result envelope (`PlacesResult` in `places.py`).  Pydantic
defaults both optional fields: `data` to Python `None` (JSON `null`
here) and `error` to `None` (`Option.none` here). -/
structure PlacesResult where
  success : Bool
  data : JVal
  error : Option String

/-- What the network does for one HTTP call: a response (status code
plus decoded JSON body) or a transport exception with message text. -/
inductive HttpOutcome where
  | response (status : Nat) (body : JVal) : HttpOutcome
  | exn (msg : String) : HttpOutcome

/-- Approximate text of the `HTTPStatusError` that
`response.raise_for_status()` raises on a non-2xx status. -/
def httpStatusText (status : Nat) : String :=
  s!"HTTP status error {status}"

/-- An upstream HTTP request as actually issued by the adapter. -/
structure GatewayCall where
  method : String
  path : String
  params : List (String × JVal)

/-- Trace of one `_request` call: the network request issued (`none`
when no network call was made) and the envelope produced. -/
structure RequestOutput where
  sent : Option GatewayCall
  result : PlacesResult

/-- `_request` (places.py lines 44-83): missing key short-circuits
before any network activity; 429 and 401 map to fixed messages; other
non-2xx statuses raise inside the `try` and surface as the exception
text; transport exceptions surface as their own text; a 2xx response
body becomes the `data` of a success envelope. -/
def _request (apiKey : String) (method path : String)
    (params : List (String × JVal)) (outcome : HttpOutcome) : RequestOutput :=
  if apiKey = "" then
    ⟨none, ⟨false, JVal.null, some "FOURSQUARE_API_KEY environment variable not set"⟩⟩
  else
    match outcome with
    | HttpOutcome.exn msg =>
        ⟨some ⟨method, path, params⟩, ⟨false, JVal.null, some msg⟩⟩
    | HttpOutcome.response status body =>
        ⟨some ⟨method, path, params⟩,
          if status = 429 then
            ⟨false, JVal.null, some "Rate limited. Please try again later."⟩
          else if status = 401 then
            ⟨false, JVal.null, some "Unauthorized. Check your API key."⟩
          else if 200 ≤ status ∧ status ≤ 299 then
            ⟨true, body, none⟩
          else
            ⟨false, JVal.null, some (httpStatusText status)⟩⟩

/-- `_format_place` (places.py lines 86-102), in source evaluation
order.  Note the source reads the latitude and longitude values from
`location`, while testing for their presence in `geocodes.main`. -/
def _format_place (place : JVal) : Except PyErr JVal := do
  let location ← pyGetD place "location" (JVal.obj [])
  let categories ← pyGetD place "categories" (JVal.arr [])
  let fsqId ← pyGet place "fsq_id"
  let name ← pyGet place "name"
  let addressDefault ← pyGet location "address"
  let address ← pyGetD location "formatted_address" addressDefault
  let locality ← pyGet location "locality"
  let region ← pyGet location "region"
  let country ← pyGet location "country"
  let distance ← pyGet place "distance"
  let catElems ← pyElems categories
  let catNames ← mapPy (fun c => pyGet c "name") catElems
  let geocodesLat ← pyGetD place "geocodes" (JVal.obj [])
  let mainLat ← pyGetD geocodesLat "main" (JVal.obj [])
  let hasLat ← pyIn "latitude" mainLat
  let latitude ← if hasLat then pyGet location "latitude" else pure JVal.null
  let geocodesLng ← pyGetD place "geocodes" (JVal.obj [])
  let mainLng ← pyGetD geocodesLng "main" (JVal.obj [])
  let hasLng ← pyIn "longitude" mainLng
  let longitude ← if hasLng then pyGet location "longitude" else pure JVal.null
  pure (JVal.obj [
    ("fsq_id", fsqId), ("name", name), ("address", address),
    ("locality", locality), ("region", region), ("country", country),
    ("distance", distance), ("categories", JVal.arr catNames),
    ("latitude", latitude), ("longitude", longitude)])

/-- Post-processing of a successful `search_near` response
(places.py lines 140-147). -/
def searchNearReshape (what whereArg : String) (data : JVal) :
    Except PyErr JVal := do
  let placesRaw ← pyGetD data "results" (JVal.arr [])
  let places ← pyElems placesRaw
  let formatted ← mapPy _format_place places
  pure (JVal.obj [
    ("query", JVal.str what), ("location", JVal.str whereArg),
    ("count", JVal.num places.length), ("places", JVal.arr formatted)])

/-- Post-processing of a successful `search_near_point` response
(places.py lines 188-196); `radiusClamped` is the already-clamped
radius echoed back into the payload. -/
def searchNearPointReshape (what ll : String) (radiusClamped : Int)
    (data : JVal) : Except PyErr JVal := do
  let placesRaw ← pyGetD data "results" (JVal.arr [])
  let places ← pyElems placesRaw
  let formatted ← mapPy _format_place places
  pure (JVal.obj [
    ("query", JVal.str what), ("coordinates", JVal.str ll),
    ("radius_meters", JVal.num radiusClamped),
    ("count", JVal.num places.length), ("places", JVal.arr formatted)])

/-- Post-processing of a successful `place_snap` response
(places.py lines 229-235). -/
def placeSnapReshape (ll : String) (data : JVal) : Except PyErr JVal := do
  let placesRaw ← pyGetD data "results" (JVal.arr [])
  let places ← pyElems placesRaw
  let formatted ← mapPy _format_place places
  pure (JVal.obj [
    ("coordinates", JVal.str ll),
    ("count", JVal.num places.length), ("places", JVal.arr formatted)])

/-- Post-processing of a successful `place_details` response
(places.py lines 267-284), in source evaluation order. -/
def placeDetailsReshape (fsqId : String) (place : JVal) :
    Except PyErr JVal := do
  let name ← pyGet place "name"
  let description ← pyGet place "description"
  let location ← pyGet place "location"
  let categoriesRaw ← pyGetD place "categories" (JVal.arr [])
  let catElems ← pyElems categoriesRaw
  let catNames ← mapPy (fun c => pyGet c "name") catElems
  let phone ← pyGet place "tel"
  let website ← pyGet place "website"
  let hours ← pyGet place "hours"
  let rating ← pyGet place "rating"
  let price ← pyGet place "price"
  let photosRaw ← pyGetD place "photos" (JVal.obj [])
  let photoGroups ← pyGetD photosRaw "groups" (JVal.arr [])
  let tipsRaw ← pyGetD place "tips" (JVal.arr [])
  let tipsSliced ← pySlice5 tipsRaw
  let tipTexts ← mapPy (fun t => pyGet t "text") tipsSliced
  pure (JVal.obj [
    ("fsq_id", JVal.str fsqId), ("name", name),
    ("description", description), ("location", location),
    ("categories", JVal.arr catNames),
    ("contact", JVal.obj [("phone", phone), ("website", website)]),
    ("hours", hours), ("rating", rating), ("price", price),
    ("photos", photoGroups), ("tips", JVal.arr tipTexts)])

/-- Trace of one tool call: the upstream request issued (if any), and
either the envelope handed back, or the Python exception that escaped
the tool body to its caller. -/
structure ToolOutput where
  sent : Option GatewayCall
  result : Except PyErr PlacesResult

/-- Glue shared by the four Places tools: run the gateway, and apply
the reshaping only `if result.success and result.data:`; the envelope
keeps its success flag and error, only `data` is replaced. -/
def withReshape (reshape : JVal → Except PyErr JVal)
    (req : RequestOutput) : ToolOutput :=
  let r := req.result
  if r.success && truthy r.data then
    match reshape r.data with
    | Except.ok d => ⟨req.sent, Except.ok ⟨r.success, d, r.error⟩⟩
    | Except.error e => ⟨req.sent, Except.error e⟩
  else
    ⟨req.sent, Except.ok r⟩

/-- `search_near` (places.py lines 115-149). -/
def search_near (apiKey whereArg what : String) (limit : Int)
    (outcome : HttpOutcome) : ToolOutput :=
  let lim : Int := max 1 (min limit 50)
  let params : List (String × JVal) :=
    [("query", JVal.str what), ("near", JVal.str whereArg),
     ("limit", JVal.num lim)]
  withReshape (searchNearReshape what whereArg)
    (_request apiKey "GET" "/places/search" params outcome)

/-- `search_near_point` (places.py lines 159-198). -/
def search_near_point (apiKey what ll : String) (radius limit : Int)
    (outcome : HttpOutcome) : ToolOutput :=
  let lim : Int := max 1 (min limit 50)
  let rad : Int := max 1 (min radius 100000)
  let params : List (String × JVal) :=
    [("query", JVal.str what), ("ll", JVal.str ll),
     ("radius", JVal.num rad), ("limit", JVal.num lim)]
  withReshape (searchNearPointReshape what ll rad)
    (_request apiKey "GET" "/places/search" params outcome)

/-- `place_snap` (places.py lines 207-237). -/
def place_snap (apiKey ll : String) (limit : Int)
    (outcome : HttpOutcome) : ToolOutput :=
  let lim : Int := max 1 (min limit 10)
  let params : List (String × JVal) :=
    [("ll", JVal.str ll), ("limit", JVal.num lim)]
  withReshape (placeSnapReshape ll)
    (_request apiKey "GET" "/places/nearby" params outcome)

/-- The default field list of `place_details` (places.py line 263). -/
def defaultFields : String :=
  "name,location,categories,description,tel,website,hours,rating,price,photos,tips"

/-- `place_details` (places.py lines 246-286); `fields` is falsy (and
replaced by the default list) when it is `None` or empty. -/
def place_details (apiKey fsqId : String) (fields : Option String)
    (outcome : HttpOutcome) : ToolOutput :=
  let fieldsValue : String :=
    match fields with
    | some f => if f.isEmpty then defaultFields else f
    | none => defaultFields
  let params : List (String × JVal) := [("fields", JVal.str fieldsValue)]
  withReshape (placeDetailsReshape fsqId)
    (_request apiKey "GET" ("/places/" ++ fsqId) params outcome)

/-- Body of the `try` block of `get_location` after a successful 2xx
response (places.py lines 305-322); any exception it raises is caught
by the surrounding `except`. -/
def getLocationInner (body : JVal) : Except PyErr PlacesResult := do
  let lat ← pyGet body "latitude"
  let lng ← pyGet body "longitude"
  if truthy lat && truthy lng then do
    let city ← pyGet body "city"
    let region ← pyGet body "region"
    let country ← pyGet body "country_name"
    pure ⟨true, JVal.obj [
      ("coordinates", JVal.str (pyStr lat ++ "," ++ pyStr lng)),
      ("city", city), ("region", region), ("country", country),
      ("note", JVal.str "This is an approximation based on IP address.")],
      none⟩
  else
    pure ⟨false, JVal.null, some "Could not determine location from IP."⟩

/-- `get_location` (places.py lines 295-324): its own HTTP call to the
IP geolocation service, with every exception inside the `try` (status
errors, transport errors, shape errors) converted to a
`Location lookup failed: ...` envelope. -/
def get_location (outcome : HttpOutcome) : PlacesResult :=
  match outcome with
  | HttpOutcome.exn msg =>
      ⟨false, JVal.null, some ("Location lookup failed: " ++ msg)⟩
  | HttpOutcome.response status body =>
      if 200 ≤ status ∧ status ≤ 299 then
        match getLocationInner body with
        | Except.ok r => r
        | Except.error e =>
            ⟨false, JVal.null, some ("Location lookup failed: " ++ pyErrStr e)⟩
      else
        ⟨false, JVal.null, some ("Location lookup failed: " ++ httpStatusText status)⟩

/-! ### Helper lemmas -/

theorem clamp50_idem (n : Int) :
    max 1 (min (max 1 (min n 50)) 50) = max 1 (min n 50) := by omega

theorem clamp10_idem (n : Int) :
    max 1 (min (max 1 (min n 10)) 10) = max 1 (min n 10) := by omega

theorem clampRadius_idem (n : Int) :
    max 1 (min (max 1 (min n 100000)) 100000) = max 1 (min n 100000) := by omega

theorem request_sent (apiKey method path : String)
    (params : List (String × JVal)) (outcome : HttpOutcome) :
    (_request apiKey method path params outcome).sent =
      if apiKey = "" then none else some ⟨method, path, params⟩ := by
  unfold _request
  by_cases h : apiKey = ""
  · simp [h]
  · cases outcome <;> simp [h]

theorem withReshape_sent (f : JVal → Except PyErr JVal) (req : RequestOutput) :
    (withReshape f req).sent = req.sent := by
  simp only [withReshape]
  by_cases h : (req.result.success && truthy req.result.data) = true
  · rw [if_pos h]
    cases f req.result.data <;> rfl
  · rw [if_neg h]

/-! ### C1, C2, C8 -/

/-- C1: for every integer input, the `limit` of `search_near` and
`search_near_point` is clamped into [1,50], the `limit` of `place_snap`
into [1,10], and the `radius` of `search_near_point` into [1,100000];
out-of-range values saturate to the nearest bound — each tool behaves
exactly as if it had been called with the clamped value, so nothing is
rejected with an error — and any request issued carries the clamped
value. -/
theorem C1_clamping (apiKey whereArg what ll : String) (limit radius : Int)
    (outcome : HttpOutcome) :
    (1 ≤ max 1 (min limit 50) ∧ max 1 (min limit 50) ≤ 50 ∧
     1 ≤ max 1 (min limit 10) ∧ max 1 (min limit 10) ≤ 10 ∧
     1 ≤ max 1 (min radius 100000) ∧ max 1 (min radius 100000) ≤ 100000) ∧
    search_near apiKey whereArg what limit outcome
      = search_near apiKey whereArg what (max 1 (min limit 50)) outcome ∧
    search_near_point apiKey what ll radius limit outcome
      = search_near_point apiKey what ll (max 1 (min radius 100000))
          (max 1 (min limit 50)) outcome ∧
    place_snap apiKey ll limit outcome
      = place_snap apiKey ll (max 1 (min limit 10)) outcome ∧
    (search_near apiKey whereArg what limit outcome).sent
      = (if apiKey = "" then none else
          some ⟨"GET", "/places/search",
            [("query", JVal.str what), ("near", JVal.str whereArg),
             ("limit", JVal.num (max 1 (min limit 50) : Int))]⟩) ∧
    (search_near_point apiKey what ll radius limit outcome).sent
      = (if apiKey = "" then none else
          some ⟨"GET", "/places/search",
            [("query", JVal.str what), ("ll", JVal.str ll),
             ("radius", JVal.num (max 1 (min radius 100000) : Int)),
             ("limit", JVal.num (max 1 (min limit 50) : Int))]⟩) ∧
    (place_snap apiKey ll limit outcome).sent
      = (if apiKey = "" then none else
          some ⟨"GET", "/places/nearby",
            [("ll", JVal.str ll),
             ("limit", JVal.num (max 1 (min limit 10) : Int))]⟩) := by
  refine ⟨⟨?_, ?_, ?_, ?_, ?_, ?_⟩, ?_, ?_, ?_, ?_, ?_, ?_⟩
  · omega
  · omega
  · omega
  · omega
  · omega
  · omega
  · simp only [search_near, clamp50_idem]
  · simp only [search_near_point, clamp50_idem, clampRadius_idem]
  · simp only [place_snap, clamp10_idem]
  · simp only [search_near]
    rw [withReshape_sent, request_sent]
  · simp only [search_near_point]
    rw [withReshape_sent, request_sent]
  · simp only [place_snap]
    rw [withReshape_sent, request_sent]

/-- C2: with the API key unset or empty, each of the four Places-backed
operations returns the failure envelope whose error names the missing
environment variable, and no network request is issued (`sent = none`),
for every possible network oracle. -/
theorem C2_missing_key (whereArg what ll fsqId : String)
    (fields : Option String) (limit radius : Int) (outcome : HttpOutcome) :
    search_near "" whereArg what limit outcome
      = ⟨none, Except.ok ⟨false, JVal.null,
          some "FOURSQUARE_API_KEY environment variable not set"⟩⟩ ∧
    search_near_point "" what ll radius limit outcome
      = ⟨none, Except.ok ⟨false, JVal.null,
          some "FOURSQUARE_API_KEY environment variable not set"⟩⟩ ∧
    place_snap "" ll limit outcome
      = ⟨none, Except.ok ⟨false, JVal.null,
          some "FOURSQUARE_API_KEY environment variable not set"⟩⟩ ∧
    place_details "" fsqId fields outcome
      = ⟨none, Except.ok ⟨false, JVal.null,
          some "FOURSQUARE_API_KEY environment variable not set"⟩⟩ := by
  exact ⟨rfl, rfl, rfl, rfl⟩

/-- C8: when the `fields` argument is not supplied, the parameters of
the request `place_details` sends consist of exactly the fixed default
field list. -/
theorem C8_default_fields (apiKey fsqId : String) (outcome : HttpOutcome) :
    defaultFields
      = "name,location,categories,description,tel,website,hours,rating,price,photos,tips" ∧
    (place_details apiKey fsqId none outcome).sent
      = (if apiKey = "" then none else
          some ⟨"GET", "/places/" ++ fsqId,
            [("fields", JVal.str defaultFields)]⟩) := by
  refine ⟨rfl, ?_⟩
  simp only [place_details]
  rw [withReshape_sent, request_sent]

/-! ### C3 -/

theorem request_429 (apiKey method path : String)
    (params : List (String × JVal)) (body : JVal) (hkey : apiKey ≠ "") :
    _request apiKey method path params (HttpOutcome.response 429 body)
      = ⟨some ⟨method, path, params⟩,
         ⟨false, JVal.null, some "Rate limited. Please try again later."⟩⟩ := by
  unfold _request
  rw [if_neg hkey]
  rfl

theorem request_401 (apiKey method path : String)
    (params : List (String × JVal)) (body : JVal) (hkey : apiKey ≠ "") :
    _request apiKey method path params (HttpOutcome.response 401 body)
      = ⟨some ⟨method, path, params⟩,
         ⟨false, JVal.null, some "Unauthorized. Check your API key."⟩⟩ := by
  unfold _request
  rw [if_neg hkey]
  rfl

theorem request_other_status (apiKey method path : String)
    (params : List (String × JVal)) (s : Nat) (body : JVal)
    (hkey : apiKey ≠ "") (h429 : s ≠ 429) (h401 : s ≠ 401)
    (h2xx : ¬(200 ≤ s ∧ s ≤ 299)) :
    _request apiKey method path params (HttpOutcome.response s body)
      = ⟨some ⟨method, path, params⟩,
         ⟨false, JVal.null, some (httpStatusText s)⟩⟩ := by
  unfold _request
  rw [if_neg hkey]
  simp only [if_neg h429, if_neg h401, if_neg h2xx]

theorem request_exn (apiKey method path : String)
    (params : List (String × JVal)) (msg : String) (hkey : apiKey ≠ "") :
    _request apiKey method path params (HttpOutcome.exn msg)
      = ⟨some ⟨method, path, params⟩, ⟨false, JVal.null, some msg⟩⟩ := by
  unfold _request
  rw [if_neg hkey]

theorem withReshape_fail (f : JVal → Except PyErr JVal)
    (sent : Option GatewayCall) (e : Option String) :
    withReshape f ⟨sent, ⟨false, JVal.null, e⟩⟩
      = ⟨sent, Except.ok ⟨false, JVal.null, e⟩⟩ := rfl

/-- C3: for every operation that calls the gateway and every network
oracle, an upstream 429 yields exactly the rate-limit failure envelope,
a 401 exactly the unauthorized envelope, any other non-2xx status the
failure envelope carrying the status-error text, and a transport
exception the failure envelope carrying the exception message; each
call issues at most one upstream request (exactly one here, since the
key is set), so nothing is retried. -/
theorem C3_error_mapping (apiKey whereArg what ll fsqId : String)
    (fields : Option String) (limit radius : Int) (s : Nat) (body : JVal)
    (msg : String) (outcome : HttpOutcome)
    (hkey : apiKey ≠ "") (h429 : s ≠ 429) (h401 : s ≠ 401)
    (h2xx : ¬(200 ≤ s ∧ s ≤ 299)) :
    (search_near apiKey whereArg what limit (HttpOutcome.response 429 body)).result
      = Except.ok ⟨false, JVal.null, some "Rate limited. Please try again later."⟩ ∧
    (search_near_point apiKey what ll radius limit (HttpOutcome.response 429 body)).result
      = Except.ok ⟨false, JVal.null, some "Rate limited. Please try again later."⟩ ∧
    (place_snap apiKey ll limit (HttpOutcome.response 429 body)).result
      = Except.ok ⟨false, JVal.null, some "Rate limited. Please try again later."⟩ ∧
    (place_details apiKey fsqId fields (HttpOutcome.response 429 body)).result
      = Except.ok ⟨false, JVal.null, some "Rate limited. Please try again later."⟩ ∧
    (search_near apiKey whereArg what limit (HttpOutcome.response 401 body)).result
      = Except.ok ⟨false, JVal.null, some "Unauthorized. Check your API key."⟩ ∧
    (search_near_point apiKey what ll radius limit (HttpOutcome.response 401 body)).result
      = Except.ok ⟨false, JVal.null, some "Unauthorized. Check your API key."⟩ ∧
    (place_snap apiKey ll limit (HttpOutcome.response 401 body)).result
      = Except.ok ⟨false, JVal.null, some "Unauthorized. Check your API key."⟩ ∧
    (place_details apiKey fsqId fields (HttpOutcome.response 401 body)).result
      = Except.ok ⟨false, JVal.null, some "Unauthorized. Check your API key."⟩ ∧
    (search_near apiKey whereArg what limit (HttpOutcome.response s body)).result
      = Except.ok ⟨false, JVal.null, some (httpStatusText s)⟩ ∧
    (search_near_point apiKey what ll radius limit (HttpOutcome.response s body)).result
      = Except.ok ⟨false, JVal.null, some (httpStatusText s)⟩ ∧
    (place_snap apiKey ll limit (HttpOutcome.response s body)).result
      = Except.ok ⟨false, JVal.null, some (httpStatusText s)⟩ ∧
    (place_details apiKey fsqId fields (HttpOutcome.response s body)).result
      = Except.ok ⟨false, JVal.null, some (httpStatusText s)⟩ ∧
    (search_near apiKey whereArg what limit (HttpOutcome.exn msg)).result
      = Except.ok ⟨false, JVal.null, some msg⟩ ∧
    (search_near_point apiKey what ll radius limit (HttpOutcome.exn msg)).result
      = Except.ok ⟨false, JVal.null, some msg⟩ ∧
    (place_snap apiKey ll limit (HttpOutcome.exn msg)).result
      = Except.ok ⟨false, JVal.null, some msg⟩ ∧
    (place_details apiKey fsqId fields (HttpOutcome.exn msg)).result
      = Except.ok ⟨false, JVal.null, some msg⟩ ∧
    (search_near apiKey whereArg what limit outcome).sent.isSome = true ∧
    (search_near_point apiKey what ll radius limit outcome).sent.isSome = true ∧
    (place_snap apiKey ll limit outcome).sent.isSome = true ∧
    (place_details apiKey fsqId fields outcome).sent.isSome = true := by
  refine ⟨?_, ?_, ?_, ?_, ?_, ?_, ?_, ?_, ?_, ?_, ?_, ?_, ?_, ?_, ?_, ?_, ?_, ?_, ?_, ?_⟩
  · simp only [search_near]
    rw [request_429 _ _ _ _ _ hkey, withReshape_fail]
  · simp only [search_near_point]
    rw [request_429 _ _ _ _ _ hkey, withReshape_fail]
  · simp only [place_snap]
    rw [request_429 _ _ _ _ _ hkey, withReshape_fail]
  · simp only [place_details]
    rw [request_429 _ _ _ _ _ hkey, withReshape_fail]
  · simp only [search_near]
    rw [request_401 _ _ _ _ _ hkey, withReshape_fail]
  · simp only [search_near_point]
    rw [request_401 _ _ _ _ _ hkey, withReshape_fail]
  · simp only [place_snap]
    rw [request_401 _ _ _ _ _ hkey, withReshape_fail]
  · simp only [place_details]
    rw [request_401 _ _ _ _ _ hkey, withReshape_fail]
  · simp only [search_near]
    rw [request_other_status _ _ _ _ _ _ hkey h429 h401 h2xx, withReshape_fail]
  · simp only [search_near_point]
    rw [request_other_status _ _ _ _ _ _ hkey h429 h401 h2xx, withReshape_fail]
  · simp only [place_snap]
    rw [request_other_status _ _ _ _ _ _ hkey h429 h401 h2xx, withReshape_fail]
  · simp only [place_details]
    rw [request_other_status _ _ _ _ _ _ hkey h429 h401 h2xx, withReshape_fail]
  · simp only [search_near]
    rw [request_exn _ _ _ _ _ hkey, withReshape_fail]
  · simp only [search_near_point]
    rw [request_exn _ _ _ _ _ hkey, withReshape_fail]
  · simp only [place_snap]
    rw [request_exn _ _ _ _ _ hkey, withReshape_fail]
  · simp only [place_details]
    rw [request_exn _ _ _ _ _ hkey, withReshape_fail]
  · simp only [search_near]
    rw [withReshape_sent, request_sent, if_neg hkey]
    rfl
  · simp only [search_near_point]
    rw [withReshape_sent, request_sent, if_neg hkey]
    rfl
  · simp only [place_snap]
    rw [withReshape_sent, request_sent, if_neg hkey]
    rfl
  · simp only [place_details]
    rw [withReshape_sent, request_sent, if_neg hkey]
    rfl

/-- C3 witness: concrete instance with the key set, a 429 outcome and
a 404 outcome. -/
theorem C3_error_mapping_witness :
    (search_near "k" "Times Square" "pizza" 3 (HttpOutcome.response 429 JVal.null)).result
      = Except.ok ⟨false, JVal.null, some "Rate limited. Please try again later."⟩ ∧
    (search_near "k" "Times Square" "pizza" 3 (HttpOutcome.response 404 JVal.null)).result
      = Except.ok ⟨false, JVal.null, some (httpStatusText 404)⟩ := by
  have h := C3_error_mapping "k" "Times Square" "pizza" "40,-74" "id4" none 3 500
    404 JVal.null "boom" (HttpOutcome.response 429 JVal.null)
    (by decide) (by decide) (by decide) (by decide)
  obtain ⟨h1, _, _, _, _, _, _, _, h9, _⟩ := h
  exact ⟨h1, h9⟩

/-! ### C4 -/

theorem bindE_ok {α β : Type} (a : α) (f : α → Except PyErr β) :
    (Except.ok a >>= f) = f a := rfl

theorem bindE_error {α β : Type} (e : PyErr) (f : α → Except PyErr β) :
    ((Except.error e : Except PyErr α) >>= f) = Except.error e := rfl

theorem pureE {α : Type} (a : α) : (pure a : Except PyErr α) = Except.ok a := rfl

theorem request_2xx (apiKey method path : String)
    (params : List (String × JVal)) (s : Nat) (body : JVal)
    (hkey : apiKey ≠ "") (h429 : s ≠ 429) (h401 : s ≠ 401)
    (h2xx : 200 ≤ s ∧ s ≤ 299) :
    _request apiKey method path params (HttpOutcome.response s body)
      = ⟨some ⟨method, path, params⟩, ⟨true, body, none⟩⟩ := by
  unfold _request
  rw [if_neg hkey]
  simp only [if_neg h429, if_neg h401, if_pos h2xx]

theorem withReshape_not_truthy (f : JVal → Except PyErr JVal)
    (sent : Option GatewayCall) (b : JVal) (hb : truthy b = false) :
    withReshape f ⟨sent, ⟨true, b, none⟩⟩
      = ⟨sent, Except.ok ⟨true, b, none⟩⟩ := by
  unfold withReshape
  simp [hb]

theorem withRequest_isOk (f : JVal → Except PyErr JVal)
    (apiKey method path : String) (params : List (String × JVal))
    (oc : HttpOutcome) :
    (withReshape f (_request apiKey method path params oc)).result.isOk = true ∨
    (∃ s b, oc = HttpOutcome.response s b ∧ (200 ≤ s ∧ s ≤ 299) ∧
       truthy b = true ∧ apiKey ≠ "") := by
  by_cases hkey : apiKey = ""
  · left
    subst hkey
    rfl
  · cases oc with
    | exn msg =>
        left
        rw [request_exn _ _ _ _ _ hkey, withReshape_fail]
        rfl
    | response s b =>
        by_cases h429 : s = 429
        · left
          subst h429
          rw [request_429 _ _ _ _ _ hkey, withReshape_fail]
          rfl
        · by_cases h401 : s = 401
          · left
            subst h401
            rw [request_401 _ _ _ _ _ hkey, withReshape_fail]
            rfl
          · by_cases h2xx : 200 ≤ s ∧ s ≤ 299
            · by_cases htr : truthy b = true
              · right
                exact ⟨s, b, rfl, h2xx, htr, hkey⟩
              · left
                rw [request_2xx _ _ _ _ _ _ hkey h429 h401 h2xx,
                  withReshape_not_truthy _ _ _ (by simpa using htr)]
                rfl
            · left
              rw [request_other_status _ _ _ _ _ _ hkey h429 h401 h2xx,
                withReshape_fail]
              rfl

theorem getLocationInner_cases (body : JVal) (r : PlacesResult)
    (h : getLocationInner body = Except.ok r) :
    r.success = true ∨ (r.success = false ∧ r.error.isSome = true) := by
  cases body with
  | obj fields =>
      simp only [getLocationInner, pyGet, pyGetD, bindE_ok, bindE_error, pureE] at h
      split at h
      · injection h with h'
        subst h'
        left
        rfl
      · injection h with h'
        subst h'
        right
        exact ⟨rfl, rfl⟩
  | null =>
      simp only [getLocationInner, pyGet, pyGetD, bindE_error] at h
      exact Except.noConfusion h
  | bool b =>
      simp only [getLocationInner, pyGet, pyGetD, bindE_error] at h
      exact Except.noConfusion h
  | num q =>
      simp only [getLocationInner, pyGet, pyGetD, bindE_error] at h
      exact Except.noConfusion h
  | str s =>
      simp only [getLocationInner, pyGet, pyGetD, bindE_error] at h
      exact Except.noConfusion h
  | arr elems =>
      simp only [getLocationInner, pyGet, pyGetD, bindE_error] at h
      exact Except.noConfusion h

/-- C4 counterexample: with the key set and an upstream 200 response
whose JSON body is the (truthy) string "unexpected", `search_near`
does not hand an envelope back: the post-processing raises an
`AttributeError` (`"unexpected".get` does not exist) that escapes to
the caller, so the claim that no operation ever raises is false. -/
theorem C4_counterexample :
    (search_near "k" "Times Square" "pizza" 5
        (HttpOutcome.response 200 (JVal.str "unexpected"))).result
      = Except.error PyErr.attributeError := rfl

/-- C4 amended: every failure is caught at the gateway boundary —
for every exception outcome, every non-2xx response, every missing-key
call and every 2xx response with a non-truthy body, each Places
operation returns a complete envelope (an exception can escape to the
caller only for a 2xx response whose truthy body is not of the
documented shape); `get_location` always returns a complete envelope
(success, or failure with the error string set). -/
theorem C4_amended (apiKey whereArg what ll fsqId : String)
    (fields : Option String) (limit radius : Int) (oc : HttpOutcome) :
    ((search_near apiKey whereArg what limit oc).result.isOk = true ∨
      (∃ s b, oc = HttpOutcome.response s b ∧ (200 ≤ s ∧ s ≤ 299) ∧
         truthy b = true ∧ apiKey ≠ "")) ∧
    ((search_near_point apiKey what ll radius limit oc).result.isOk = true ∨
      (∃ s b, oc = HttpOutcome.response s b ∧ (200 ≤ s ∧ s ≤ 299) ∧
         truthy b = true ∧ apiKey ≠ "")) ∧
    ((place_snap apiKey ll limit oc).result.isOk = true ∨
      (∃ s b, oc = HttpOutcome.response s b ∧ (200 ≤ s ∧ s ≤ 299) ∧
         truthy b = true ∧ apiKey ≠ "")) ∧
    ((place_details apiKey fsqId fields oc).result.isOk = true ∨
      (∃ s b, oc = HttpOutcome.response s b ∧ (200 ≤ s ∧ s ≤ 299) ∧
         truthy b = true ∧ apiKey ≠ "")) ∧
    ((get_location oc).success = true ∨
      ((get_location oc).success = false ∧ ((get_location oc).error).isSome = true)) := by
  refine ⟨?_, ?_, ?_, ?_, ?_⟩
  · simp only [search_near]
    exact withRequest_isOk _ _ _ _ _ _
  · simp only [search_near_point]
    exact withRequest_isOk _ _ _ _ _ _
  · simp only [place_snap]
    exact withRequest_isOk _ _ _ _ _ _
  · simp only [place_details]
    exact withRequest_isOk _ _ _ _ _ _
  · cases oc with
    | exn msg =>
        right
        exact ⟨rfl, rfl⟩
    | response s b =>
        simp only [get_location]
        by_cases h2xx : 200 ≤ s ∧ s ≤ 299
        · rw [if_pos h2xx]
          cases hinner : getLocationInner b with
          | ok r =>
              rcases getLocationInner_cases b r hinner with hs | hs
              · left
                exact hs
              · right
                exact hs
          | error e =>
              right
              exact ⟨rfl, rfl⟩
        · rw [if_neg h2xx]
          right
          exact ⟨rfl, rfl⟩

/-! ### C5 -/

theorem except_bind_ok {α β : Type} (x : Except PyErr α)
    (f : α → Except PyErr β) (b : β) (h : (x >>= f) = Except.ok b) :
    ∃ a, x = Except.ok a ∧ f a = Except.ok b := by
  cases x with
  | ok a => exact ⟨a, rfl, h⟩
  | error e =>
      rw [bindE_error] at h
      exact Except.noConfusion h

theorem searchNearReshape_ok_ne_null (what whereArg : String) (d o : JVal)
    (h : searchNearReshape what whereArg d = Except.ok o) : o ≠ JVal.null := by
  unfold searchNearReshape at h
  repeat obtain ⟨_, -, h⟩ := except_bind_ok _ _ _ h
  rw [pureE] at h
  injection h with h'
  subst h'
  intro hc
  exact JVal.noConfusion hc

theorem searchNearPointReshape_ok_ne_null (what ll : String)
    (radiusClamped : Int) (d o : JVal)
    (h : searchNearPointReshape what ll radiusClamped d = Except.ok o) :
    o ≠ JVal.null := by
  unfold searchNearPointReshape at h
  repeat obtain ⟨_, -, h⟩ := except_bind_ok _ _ _ h
  rw [pureE] at h
  injection h with h'
  subst h'
  intro hc
  exact JVal.noConfusion hc

theorem placeSnapReshape_ok_ne_null (ll : String) (d o : JVal)
    (h : placeSnapReshape ll d = Except.ok o) : o ≠ JVal.null := by
  unfold placeSnapReshape at h
  repeat obtain ⟨_, -, h⟩ := except_bind_ok _ _ _ h
  rw [pureE] at h
  injection h with h'
  subst h'
  intro hc
  exact JVal.noConfusion hc

theorem placeDetailsReshape_ok_ne_null (fsqId : String) (d o : JVal)
    (h : placeDetailsReshape fsqId d = Except.ok o) : o ≠ JVal.null := by
  unfold placeDetailsReshape at h
  repeat obtain ⟨_, -, h⟩ := except_bind_ok _ _ _ h
  rw [pureE] at h
  injection h with h'
  subst h'
  intro hc
  exact JVal.noConfusion hc

/-- The envelope invariant as amended for C5: a failure envelope has
its error set and `data` equal to `None`; a success envelope has no
error; and a success envelope can have `data = None` only when the
upstream 2xx body itself was JSON `null`. -/
def envGood (r : PlacesResult) (oc : HttpOutcome) : Prop :=
  (r.success = false → r.error.isSome = true ∧ r.data = JVal.null) ∧
  (r.success = true → r.error = none) ∧
  (r.success = true → r.data = JVal.null →
    ∃ s, oc = HttpOutcome.response s JVal.null ∧ 200 ≤ s ∧ s ≤ 299)

theorem envGood_fail (e : String) (oc : HttpOutcome) :
    envGood ⟨false, JVal.null, some e⟩ oc := by
  exact ⟨fun _ => ⟨rfl, rfl⟩, fun hc => Bool.noConfusion hc,
    fun hc => Bool.noConfusion hc⟩

theorem withReshape_truthy (f : JVal → Except PyErr JVal)
    (sent : Option GatewayCall) (b : JVal) (hb : truthy b = true) :
    withReshape f ⟨sent, ⟨true, b, none⟩⟩
      = match f b with
        | Except.ok d => ⟨sent, Except.ok ⟨true, d, none⟩⟩
        | Except.error e => ⟨sent, Except.error e⟩ := by
  unfold withReshape
  simp [hb]

theorem withRequest_envGood (f : JVal → Except PyErr JVal)
    (hf : ∀ d o, f d = Except.ok o → o ≠ JVal.null)
    (apiKey method path : String) (params : List (String × JVal))
    (oc : HttpOutcome) (r : PlacesResult)
    (h : (withReshape f (_request apiKey method path params oc)).result
      = Except.ok r) :
    envGood r oc := by
  by_cases hkey : apiKey = ""
  · subst hkey
    have h' : (⟨false, JVal.null,
        some "FOURSQUARE_API_KEY environment variable not set"⟩ : PlacesResult) = r := by
      injection h
    rw [← h']
    exact envGood_fail _ _
  · cases oc with
    | exn msg =>
        rw [request_exn _ _ _ _ _ hkey, withReshape_fail] at h
        injection h with h'
        rw [← h']
        exact envGood_fail _ _
    | response s b =>
        by_cases h429 : s = 429
        · subst h429
          rw [request_429 _ _ _ _ _ hkey, withReshape_fail] at h
          injection h with h'
          rw [← h']
          exact envGood_fail _ _
        · by_cases h401 : s = 401
          · subst h401
            rw [request_401 _ _ _ _ _ hkey, withReshape_fail] at h
            injection h with h'
            rw [← h']
            exact envGood_fail _ _
          · by_cases h2xx : 200 ≤ s ∧ s ≤ 299
            · by_cases htr : truthy b = true
              · rw [request_2xx _ _ _ _ _ _ hkey h429 h401 h2xx,
                  withReshape_truthy _ _ _ htr] at h
                cases hfb : f b with
                | ok d =>
                    rw [hfb] at h
                    injection h with h'
                    rw [← h']
                    refine ⟨fun hc => Bool.noConfusion hc, fun _ => rfl, ?_⟩
                    intro _ hdata
                    exact absurd hdata (hf b d hfb)
                | error e =>
                    rw [hfb] at h
                    exact Except.noConfusion h
              · have htr' : truthy b = false := by simpa using htr
                rw [request_2xx _ _ _ _ _ _ hkey h429 h401 h2xx,
                  withReshape_not_truthy _ _ _ htr'] at h
                injection h with h'
                rw [← h']
                refine ⟨fun hc => Bool.noConfusion hc, fun _ => rfl, ?_⟩
                intro _ hdata
                refine ⟨s, ?_, h2xx⟩
                rw [show b = JVal.null from hdata]
            · rw [request_other_status _ _ _ _ _ _ hkey h429 h401 h2xx,
                withReshape_fail] at h
              injection h with h'
              rw [← h']
              exact envGood_fail _ _

theorem getLocationInner_envGood (body : JVal) (r : PlacesResult)
    (h : getLocationInner body = Except.ok r) (oc : HttpOutcome) :
    envGood r oc := by
  cases body with
  | obj fields =>
      simp only [getLocationInner, pyGet, pyGetD, bindE_ok, bindE_error, pureE] at h
      split at h
      · injection h with h'
        rw [← h']
        refine ⟨fun hc => Bool.noConfusion hc, fun _ => rfl, ?_⟩
        intro _ hdata
        exact absurd hdata (fun hc => JVal.noConfusion hc)
      · injection h with h'
        rw [← h']
        exact envGood_fail _ _
  | null =>
      simp only [getLocationInner, pyGet, pyGetD, bindE_error] at h
      exact Except.noConfusion h
  | bool b =>
      simp only [getLocationInner, pyGet, pyGetD, bindE_error] at h
      exact Except.noConfusion h
  | num q =>
      simp only [getLocationInner, pyGet, pyGetD, bindE_error] at h
      exact Except.noConfusion h
  | str s =>
      simp only [getLocationInner, pyGet, pyGetD, bindE_error] at h
      exact Except.noConfusion h
  | arr elems =>
      simp only [getLocationInner, pyGet, pyGetD, bindE_error] at h
      exact Except.noConfusion h

/-- C5 counterexample: with the key set, `place_details` on a 200
response whose JSON body is `null` returns an envelope with
`success = true` whose `data` is `None` (and `error` is `None` too),
so "when success is true, data is set" is false as stated. -/
theorem C5_counterexample :
    (place_details "k" "id4" none (HttpOutcome.response 200 JVal.null)).result
      = Except.ok ⟨true, JVal.null, none⟩ := rfl

/-- C5 amended: whenever an operation hands an envelope back, a false
`success` comes with `error` set and `data` equal to `None`, a true
`success` comes with `error` equal to `None`, and a true `success` can
leave `data` equal to `None` only when the upstream 2xx JSON body was
itself `null`. -/
theorem C5_envelope_invariant (apiKey whereArg what ll fsqId : String)
    (fields : Option String) (limit radius : Int) (oc : HttpOutcome) :
    (∀ r, (search_near apiKey whereArg what limit oc).result = Except.ok r →
      envGood r oc) ∧
    (∀ r, (search_near_point apiKey what ll radius limit oc).result = Except.ok r →
      envGood r oc) ∧
    (∀ r, (place_snap apiKey ll limit oc).result = Except.ok r →
      envGood r oc) ∧
    (∀ r, (place_details apiKey fsqId fields oc).result = Except.ok r →
      envGood r oc) ∧
    envGood (get_location oc) oc := by
  refine ⟨?_, ?_, ?_, ?_, ?_⟩
  · intro r h
    simp only [search_near] at h
    exact withRequest_envGood _ (searchNearReshape_ok_ne_null _ _) _ _ _ _ _ _ h
  · intro r h
    simp only [search_near_point] at h
    exact withRequest_envGood _ (searchNearPointReshape_ok_ne_null _ _ _) _ _ _ _ _ _ h
  · intro r h
    simp only [place_snap] at h
    exact withRequest_envGood _ (placeSnapReshape_ok_ne_null _) _ _ _ _ _ _ h
  · intro r h
    simp only [place_details] at h
    exact withRequest_envGood _ (placeDetailsReshape_ok_ne_null _) _ _ _ _ _ _ h
  · cases oc with
    | exn msg => exact envGood_fail _ _
    | response s b =>
        simp only [get_location]
        by_cases h2xx : 200 ≤ s ∧ s ≤ 299
        · rw [if_pos h2xx]
          cases hinner : getLocationInner b with
          | ok r => exact getLocationInner_envGood b r hinner _
          | error e => exact envGood_fail _ _
        · rw [if_neg h2xx]
          exact envGood_fail _ _

/-- C5 witness: the amended invariant evaluated at a concrete
successful `search_near` call. -/
theorem C5_envelope_invariant_witness :
    envGood ⟨true, JVal.obj [
        ("query", JVal.str "pizza"), ("location", JVal.str "Times Square"),
        ("count", JVal.num 0), ("places", JVal.arr [])], none⟩
      (HttpOutcome.response 200 (JVal.obj [("results", JVal.arr [])])) := by
  have h := C5_envelope_invariant "k" "Times Square" "pizza" "40,-74" "id4" none
    3 500 (HttpOutcome.response 200 (JVal.obj [("results", JVal.arr [])]))
  exact h.1 _ rfl

/-! ### C6, C7 -/

theorem mapE_ok {α β : Type} (f : α → β) (a : α) :
    (f <$> (Except.ok a : Except PyErr α)) = Except.ok (f a) := rfl

theorem mapPy_objs (cs : List JVal)
    (h : ∀ c ∈ cs, ∃ cfs, c = JVal.obj cfs) :
    ∃ ns, mapPy (fun c => pyGet c "name") cs = Except.ok ns := by
  induction cs with
  | nil => exact ⟨[], rfl⟩
  | cons c cs ih =>
      obtain ⟨cfs, hc⟩ := h c (List.mem_cons_self _ _)
      obtain ⟨ns, hns⟩ := ih (fun x hx => h x (List.mem_cons_of_mem _ hx))
      subst hc
      refine ⟨(lookupKey cfs "name").getD JVal.null :: ns, ?_⟩
      rw [mapPy, show pyGet (JVal.obj cfs) "name"
          = Except.ok ((lookupKey cfs "name").getD JVal.null) from rfl,
        bindE_ok, hns, bindE_ok]
      rfl

theorem format_place_eq (fs lfs gfs mfs : List (String × JVal))
    (cs ns : List JVal)
    (h1 : (lookupKey fs "location").getD (JVal.obj []) = JVal.obj lfs)
    (h2 : (lookupKey fs "categories").getD (JVal.arr []) = JVal.arr cs)
    (h4 : (lookupKey fs "geocodes").getD (JVal.obj []) = JVal.obj gfs)
    (h5 : (lookupKey gfs "main").getD (JVal.obj []) = JVal.obj mfs)
    (h3 : mapPy (fun c => pyGet c "name") cs = Except.ok ns) :
    _format_place (JVal.obj fs) = Except.ok (JVal.obj [
      ("fsq_id", (lookupKey fs "fsq_id").getD JVal.null),
      ("name", (lookupKey fs "name").getD JVal.null),
      ("address", (lookupKey lfs "formatted_address").getD
        ((lookupKey lfs "address").getD JVal.null)),
      ("locality", (lookupKey lfs "locality").getD JVal.null),
      ("region", (lookupKey lfs "region").getD JVal.null),
      ("country", (lookupKey lfs "country").getD JVal.null),
      ("distance", (lookupKey fs "distance").getD JVal.null),
      ("categories", JVal.arr ns),
      ("latitude", if (lookupKey mfs "latitude").isSome
        then (lookupKey lfs "latitude").getD JVal.null else JVal.null),
      ("longitude", if (lookupKey mfs "longitude").isSome
        then (lookupKey lfs "longitude").getD JVal.null else JVal.null)]) := by
  have hmap := h3
  simp only [pyGet, pyGetD] at hmap
  cases hlat : (lookupKey mfs "latitude").isSome <;>
  cases hlng : (lookupKey mfs "longitude").isSome <;>
  simp [_format_place, pyGet, pyGetD, h1, h2, h4, h5, pyElems, pyIn,
    bindE_ok, bindE_error, pureE, mapE_ok, hmap, hlat, hlng]

/-- C6: a raw place record lacking a `geocodes.main` sub-object is
formatted without an exception and its summary carries
`latitude = None` and `longitude = None`; more generally, with the
nested `location`, `categories` and `geocodes` fields absent or of the
expected shapes, no exception is raised, a missing `location` leaves
the address fields `None`, and missing `categories` leave an empty
category list. -/
theorem C6_missing_geocodes (fs lfs gfs : List (String × JVal)) (cs : List JVal)
    (h1 : (lookupKey fs "location").getD (JVal.obj []) = JVal.obj lfs)
    (h2 : (lookupKey fs "categories").getD (JVal.arr []) = JVal.arr cs)
    (h3 : ∀ c ∈ cs, ∃ cfs, c = JVal.obj cfs)
    (h4 : (lookupKey fs "geocodes").getD (JVal.obj []) = JVal.obj gfs)
    (h5 : lookupKey gfs "main" = none) :
    ∃ o, _format_place (JVal.obj fs) = Except.ok o ∧
      getField o "latitude" = JVal.null ∧
      getField o "longitude" = JVal.null ∧
      (lookupKey fs "location" = none →
        getField o "address" = JVal.null ∧
        getField o "locality" = JVal.null ∧
        getField o "region" = JVal.null ∧
        getField o "country" = JVal.null) ∧
      (lookupKey fs "categories" = none →
        getField o "categories" = JVal.arr []) := by
  obtain ⟨ns, hns⟩ := mapPy_objs cs h3
  have h5' : (lookupKey gfs "main").getD (JVal.obj []) = JVal.obj [] := by
    rw [h5]
    rfl
  refine ⟨_, format_place_eq fs lfs gfs [] cs ns h1 h2 h4 h5' hns,
    rfl, rfl, ?_, ?_⟩
  · intro hno
    have hlfs : lfs = [] := by
      rw [hno] at h1
      injection h1 with h1'
      exact h1'.symm
    subst hlfs
    exact ⟨rfl, rfl, rfl, rfl⟩
  · intro hno
    have hcs : cs = [] := by
      rw [hno] at h2
      injection h2 with h2'
      exact h2'.symm
    subst hcs
    have hns' : ns = [] := by
      rw [show mapPy (fun c => pyGet c "name") [] = Except.ok [] from rfl] at hns
      injection hns with h'
      exact h'.symm
    subst hns'
    rfl

/-- C6 witness: a concrete record with only an id and a name — no
location, categories or geocodes — formats to all-`None` fields. -/
theorem C6_missing_geocodes_witness :
    ∃ o, _format_place (JVal.obj [("fsq_id", JVal.str "abc"),
        ("name", JVal.str "Blue Bottle")]) = Except.ok o ∧
      getField o "latitude" = JVal.null ∧
      getField o "longitude" = JVal.null ∧
      (lookupKey [("fsq_id", JVal.str "abc"),
          ("name", JVal.str "Blue Bottle")] "location" = none →
        getField o "address" = JVal.null ∧
        getField o "locality" = JVal.null ∧
        getField o "region" = JVal.null ∧
        getField o "country" = JVal.null) ∧
      (lookupKey [("fsq_id", JVal.str "abc"),
          ("name", JVal.str "Blue Bottle")] "categories" = none →
        getField o "categories" = JVal.arr []) := by
  exact C6_missing_geocodes [("fsq_id", JVal.str "abc"),
    ("name", JVal.str "Blue Bottle")] [] [] []
    rfl rfl (fun c hc => absurd hc (List.not_mem_nil c)) rfl rfl

/-- C7: evaluation showing the divergence — on a record whose
`geocodes.main` holds latitude 41 and longitude -74 while `location`
has no coordinate entries, the summary's latitude and longitude are
`None`, not 41 and -74: `_format_place` tests for presence in
`geocodes.main` but reads the values from `location`. -/
theorem C7_code_eval :
    _format_place (JVal.obj [
        ("name", JVal.str "Cafe"),
        ("location", JVal.obj [("locality", JVal.str "NYC")]),
        ("geocodes", JVal.obj [("main", JVal.obj
          [("latitude", JVal.num 41), ("longitude", JVal.num (-74))])])])
      = Except.ok (JVal.obj [
        ("fsq_id", JVal.null), ("name", JVal.str "Cafe"),
        ("address", JVal.null), ("locality", JVal.str "NYC"),
        ("region", JVal.null), ("country", JVal.null),
        ("distance", JVal.null), ("categories", JVal.arr []),
        ("latitude", JVal.null), ("longitude", JVal.null)]) := rfl

/-! ### C9, C10 -/

/-- C9 counterexample: a 200 IP-geolocation response in which both
coordinates are present — latitude 7, longitude 0 — still produces the
could-not-determine failure envelope, because presence is tested by
truthiness and `0` is falsy; so "when both are present it returns a
success envelope" is false as stated. -/
theorem C9_counterexample :
    get_location (HttpOutcome.response 200 (JVal.obj
        [("latitude", JVal.num 7), ("longitude", JVal.num 0)]))
      = ⟨false, JVal.null, some "Could not determine location from IP."⟩ := rfl

/-- C9 amended: on a 2xx response whose JSON object has `latitude`
null or absent, `get_location` returns exactly the
could-not-determine failure envelope; and when both `latitude` and
`longitude` are present as truthy (nonzero) numbers it returns a
success envelope whose `coordinates` field is the string "lat,lng". -/
theorem C9_ip_geolocation (s : Nat) (bfs cfs : List (String × JVal)) (a b : ℚ)
    (h2xx : 200 ≤ s ∧ s ≤ 299)
    (hnull : lookupKey bfs "latitude" = none ∨
      lookupKey bfs "latitude" = some JVal.null)
    (hca : lookupKey cfs "latitude" = some (JVal.num a))
    (hcb : lookupKey cfs "longitude" = some (JVal.num b))
    (ha : a ≠ 0) (hb : b ≠ 0) :
    get_location (HttpOutcome.response s (JVal.obj bfs))
      = ⟨false, JVal.null, some "Could not determine location from IP."⟩ ∧
    (get_location (HttpOutcome.response s (JVal.obj cfs))).success = true ∧
    getField (get_location (HttpOutcome.response s (JVal.obj cfs))).data
        "coordinates"
      = JVal.str (pyNumStr a ++ "," ++ pyNumStr b) := by
  have hta : truthy (JVal.num a) = true := by simp [truthy, ha]
  have htb : truthy (JVal.num b) = true := by simp [truthy, hb]
  have hinner0 : getLocationInner (JVal.obj bfs)
      = Except.ok ⟨false, JVal.null, some "Could not determine location from IP."⟩ := by
    rcases hnull with hn | hn <;>
      simp [getLocationInner, pyGet, pyGetD, bindE_ok, pureE, hn, truthy]
  have hinner1 : getLocationInner (JVal.obj cfs)
      = Except.ok ⟨true, JVal.obj [
          ("coordinates", JVal.str (pyNumStr a ++ "," ++ pyNumStr b)),
          ("city", (lookupKey cfs "city").getD JVal.null),
          ("region", (lookupKey cfs "region").getD JVal.null),
          ("country", (lookupKey cfs "country_name").getD JVal.null),
          ("note", JVal.str "This is an approximation based on IP address.")],
          none⟩ := by
    simp [getLocationInner, pyGet, pyGetD, bindE_ok, pureE, hca, hcb,
      hta, htb, pyStr]
  refine ⟨?_, ?_, ?_⟩
  · simp only [get_location, if_pos h2xx, hinner0]
  · simp only [get_location, if_pos h2xx, hinner1]
  · simp only [get_location, if_pos h2xx, hinner1]
    rfl

/-- C9 witness: concrete 200 responses, one with `latitude: null` and
one with latitude 40 and longitude -74. -/
theorem C9_ip_geolocation_witness :
    get_location (HttpOutcome.response 200 (JVal.obj
        [("latitude", JVal.null), ("longitude", JVal.num 5)]))
      = ⟨false, JVal.null, some "Could not determine location from IP."⟩ ∧
    (get_location (HttpOutcome.response 200 (JVal.obj
        [("latitude", JVal.num 40), ("longitude", JVal.num (-74))]))).success
      = true ∧
    getField (get_location (HttpOutcome.response 200 (JVal.obj
        [("latitude", JVal.num 40), ("longitude", JVal.num (-74))]))).data
        "coordinates"
      = JVal.str (pyNumStr 40 ++ "," ++ pyNumStr (-74)) := by
  exact C9_ip_geolocation 200
    [("latitude", JVal.null), ("longitude", JVal.num 5)]
    [("latitude", JVal.num 40), ("longitude", JVal.num (-74))]
    40 (-74) (by decide) (Or.inr rfl) rfl rfl (by decide) (by decide)

/-- C10: on a 2xx IP-geolocation response in which latitude and
longitude are both present but either equals numeric 0 (a valid
equator/meridian coordinate), `get_location` returns the
could-not-determine failure envelope, because the code tests presence
by Python truthiness rather than key existence. -/
theorem C10_zero_coordinate (s : Nat) (bfs : List (String × JVal))
    (la lb : JVal)
    (h2xx : 200 ≤ s ∧ s ≤ 299)
    (hla : lookupKey bfs "latitude" = some la)
    (hlb : lookupKey bfs "longitude" = some lb)
    (hzero : la = JVal.num 0 ∨ lb = JVal.num 0) :
    get_location (HttpOutcome.response s (JVal.obj bfs))
      = ⟨false, JVal.null, some "Could not determine location from IP."⟩ := by
  have hinner : getLocationInner (JVal.obj bfs)
      = Except.ok ⟨false, JVal.null, some "Could not determine location from IP."⟩ := by
    rcases hzero with hz | hz <;> subst hz <;>
      simp [getLocationInner, pyGet, pyGetD, bindE_ok, pureE, hla, hlb, truthy]
  simp only [get_location, if_pos h2xx, hinner]

/-- C10 witness: latitude 0 with longitude 5 on a 200 response. -/
theorem C10_zero_coordinate_witness :
    get_location (HttpOutcome.response 200 (JVal.obj
        [("latitude", JVal.num 0), ("longitude", JVal.num 5)]))
      = ⟨false, JVal.null, some "Could not determine location from IP."⟩ := by
  exact C10_zero_coordinate 200
    [("latitude", JVal.num 0), ("longitude", JVal.num 5)]
    (JVal.num 0) (JVal.num 5) (by decide) rfl rfl (Or.inl rfl)
